import Mathlib

/-
Shallow embedding of the cashplan projection engine
(`FinancialCalculator` and `calculateCarDepreciation` from the server's
calculator service), together with theorems checking the specification's
claims about it.

Modelling conventions:
* JS numbers are modelled as `ℚ`; the engine only uses `+ - * / max pow round`.
  Division by zero is `0` in `ℚ` while JS produces `NaN`; the one code path
  where this matters (the annuity formula at `interestRate = 0`) is analysed
  explicitly through `annuityNum` / `annuityDen`.
* A JS `Date` is modelled at day granularity as an absolute month index
  (`year * 12 + zero-based-month`) plus a 1-based day of month; this is all
  the engine inspects (`startOfMonth`, `addMonths`, comparisons,
  `differenceInMonths`).
* The JS `Map` objects are modelled as functions `ℤ → Option ℚ`
  (resp. `Option JDate`); `map.get(k) || fallback` is `jsGetOr`, which takes
  the fallback both when the key is absent and when the stored value is the
  falsy number `0`, exactly as `||` does.
-/

namespace Cashplan

/-- JS money / number values, modelled as rationals. -/
abbrev Money := ℚ

/-- A calendar date: absolute month index (`year * 12 + zero-based month`)
plus a 1-based day of month. -/
structure JDate where
  month : ℤ
  day : ℕ
deriving DecidableEq, Repr

/-- date-fns `startOfMonth`: truncate to the first day of the month. -/
def startOfMonth (d : JDate) : JDate := ⟨d.month, 1⟩

/-- date-fns `addMonths`. (The engine only ever reads the month component of
an `addMonths` result, or its `startOfMonth`, so day clamping is immaterial
and the day is kept.) -/
def addMonths (d : JDate) (n : ℤ) : JDate := ⟨d.month + n, d.day⟩

/-- date-fns `isBefore`: strict chronological order on dates. -/
abbrev jsIsBefore (a b : JDate) : Prop :=
  a.month < b.month ∨ (a.month = b.month ∧ a.day < b.day)

/-- date-fns `isAfter`. -/
abbrev jsIsAfter (a b : JDate) : Prop := jsIsBefore b a

/-- date-fns `differenceInMonths a b` (number of *full* months from `b` to
`a`), specialised to a left operand that is the first day of its month —
the engine only calls it with `currentMonth`, which always is.  For such a
left operand date-fns yields `a.month - b.month`, minus one more when `a` is
chronologically later but `b`'s day of month exceeds 1 (the last month is
then not yet complete). -/
def jsDiffMonths (a b : JDate) : ℤ :=
  if b.month < a.month ∧ 1 < b.day then a.month - b.month - 1 else a.month - b.month

/-- The calendar month number 1..12 of a date (JS `getMonth() + 1`). -/
def monthNumber (d : JDate) : ℤ := d.month % 12 + 1

/-- Result record returned by every per-event delta calculator. -/
structure DeltaResult where
  liquidityDelta : Money
  assetsDelta : Money
  newBalance : Option Money
deriving DecidableEq, Repr

/-- Payload of `income` and `expense` events (identical shapes in the
source). -/
structure CashflowData where
  amount : Money
  isRecurrent : Bool
  months : List ℤ
  startDate : JDate
  endDate : Option JDate
deriving DecidableEq, Repr

/-- Payload of `mortgage` events. -/
structure MortgageData where
  startDate : JDate
  purchasePrice : Money
  loanedAmount : Money
  interestRate : Money
  repaymentPercentage : Money
  years : ℕ
deriving DecidableEq, Repr

/-- Payload of `mortgage_repayment` events. -/
structure MortgageRepaymentData where
  mortgageEventId : ℤ
  date : JDate
  amount : Money
deriving DecidableEq, Repr

/-- Payload of `pcp` events. -/
structure PCPData where
  startDate : JDate
  purchasePrice : Money
  deposit : Money
  years : ℕ
  residualValue : Money
  interestRate : Money
deriving DecidableEq, Repr

/-- Payload of `car_loan` events. -/
structure CarLoanData where
  startDate : JDate
  purchasePrice : Money
  deposit : Money
  years : ℕ
  interestRate : Money
deriving DecidableEq, Repr

/-- The tagged union of event payloads.  `unrecognized` stands for an event
whose `type` string is none of the six recognized variants: the dispatch
switch has no case for it, so the default zero delta applies. -/
inductive EventData where
  | income (d : CashflowData)
  | expense (d : CashflowData)
  | mortgage (d : MortgageData)
  | mortgageRepayment (d : MortgageRepaymentData)
  | pcp (d : PCPData)
  | carLoan (d : CarLoanData)
  | unrecognized
deriving DecidableEq

/-- An event: numeric id plus variant payload (`planId` and timestamps are
irrelevant to the engine). -/
structure Event where
  id : ℤ
  data : EventData
deriving DecidableEq

/-- Shared helper `calculateCarDepreciation`: monthly depreciation from the
original purchase price and the vehicle age in months.
`Math.floor(m / 12)` is `Int.fdiv m 12`. -/
def calculateCarDepreciation (purchasePrice : Money) (monthsSincePurchase : ℤ) : Money :=
  let yearsSincePurchase := Int.fdiv monthsSincePurchase 12
  let depreciationRate : Money :=
    if yearsSincePurchase < 2 then 2 / 100
    else if yearsSincePurchase < 4 then 12 / 1000
    else 1 / 100
  let depreciation := purchasePrice * depreciationRate
  max depreciation 0

/-- Test whether an optional `endDate` gate rejects the current month:
`if (endDate) { if (isAfter(currentMonth, startOfMonth(end))) return zero }`. -/
def afterEndDate (endDate : Option JDate) (currentMonth : JDate) : Bool :=
  match endDate with
  | some e => decide (jsIsAfter currentMonth (startOfMonth e))
  | none => false

/-- `calculateIncomeDelta`. -/
def calculateIncomeDelta (d : CashflowData) (currentMonth : JDate) : DeltaResult :=
  if jsIsBefore currentMonth (startOfMonth d.startDate) then ⟨0, 0, none⟩
  else if afterEndDate d.endDate currentMonth then ⟨0, 0, none⟩
  else if !d.isRecurrent then
    if startOfMonth currentMonth = startOfMonth d.startDate then ⟨d.amount, 0, none⟩
    else ⟨0, 0, none⟩
  else if d.months = [] ∨ monthNumber currentMonth ∈ d.months then ⟨d.amount, 0, none⟩
  else ⟨0, 0, none⟩

/-- `calculateExpenseDelta` (identical to income with a negated amount). -/
def calculateExpenseDelta (d : CashflowData) (currentMonth : JDate) : DeltaResult :=
  if jsIsBefore currentMonth (startOfMonth d.startDate) then ⟨0, 0, none⟩
  else if afterEndDate d.endDate currentMonth then ⟨0, 0, none⟩
  else if !d.isRecurrent then
    if startOfMonth currentMonth = startOfMonth d.startDate then ⟨-d.amount, 0, none⟩
    else ⟨0, 0, none⟩
  else if d.months = [] ∨ monthNumber currentMonth ∈ d.months then ⟨-d.amount, 0, none⟩
  else ⟨0, 0, none⟩

/-- Numerator `r * (1+r)^n` of the fixed-payment annuity factor used by the
mortgage, PCP and car-loan calculators. -/
def annuityNum (r : Money) (n : ℕ) : Money := r * (1 + r) ^ n

/-- Denominator `(1+r)^n - 1` of the fixed-payment annuity factor. -/
def annuityDen (r : Money) (n : ℕ) : Money := (1 + r) ^ n - 1

/-- The mortgage's monthly interest rate `interestRate / 12`. -/
def mortgageMonthlyRate (d : MortgageData) : Money := d.interestRate / 12

/-- The mortgage's fixed amortized payment
`repaymentAmount * (r * (1+r)^n) / ((1+r)^n - 1)` over `n = years * 12`
months of the repayment tranche `loanedAmount * repaymentPercentage`. -/
def mortgageAmortizedPayment (d : MortgageData) : Money :=
  d.loanedAmount * d.repaymentPercentage
      * annuityNum (mortgageMonthlyRate d) (d.years * 12)
    / annuityDen (mortgageMonthlyRate d) (d.years * 12)

/-- The monthly payment `loanedAmount * (1 - repaymentPercentage) * r` on the
interest-only tranche of a mortgage. -/
def mortgageInterestOnlyPayment (d : MortgageData) : Money :=
  d.loanedAmount * (1 - d.repaymentPercentage) * mortgageMonthlyRate d

/-- `calculateMortgageDelta`. -/
def calculateMortgageDelta (d : MortgageData) (currentMonth : JDate)
    (repaymentBalance : Money) : DeltaResult :=
  let start := d.startDate
  let endDate := addMonths start ((d.years : ℤ) * 12)
  if jsIsBefore currentMonth (startOfMonth start)
      ∨ jsIsAfter currentMonth (startOfMonth endDate) then ⟨0, 0, none⟩
  else if startOfMonth currentMonth = startOfMonth start then
    ⟨0, d.purchasePrice - d.loanedAmount, some repaymentBalance⟩
  else
    let amortizedPayment := mortgageAmortizedPayment d
    let interestPortion := repaymentBalance * mortgageMonthlyRate d
    let principalPortion := amortizedPayment - interestPortion
    let newBalance := max 0 (repaymentBalance - principalPortion)
    let totalPayment := amortizedPayment + mortgageInterestOnlyPayment d
    ⟨-totalPayment, principalPortion, some newBalance⟩

/-- `calculateMortgageRepaymentDelta`. -/
def calculateMortgageRepaymentDelta (d : MortgageRepaymentData) (currentMonth : JDate)
    (repaymentBalance : Money) : DeltaResult :=
  if ¬ (startOfMonth currentMonth = startOfMonth d.date) then ⟨0, 0, none⟩
  else ⟨-d.amount, d.amount, some (max 0 (repaymentBalance - d.amount))⟩

/-- `calculatePCPDelta`.  The source's unused `_currentMonth` parameter is
dropped; the month enters only through `monthsSincePurchase`. -/
def calculatePCPDelta (d : PCPData) (monthsSincePurchase : ℤ) : DeltaResult :=
  if monthsSincePurchase < 0 ∨ (d.years : ℤ) * 12 ≤ monthsSincePurchase then ⟨0, 0, none⟩
  else if monthsSincePurchase = 0 then
    ⟨-d.deposit, d.purchasePrice - d.deposit, none⟩
  else
    let loanedAmount := d.purchasePrice - d.deposit
    let amountToFinance := loanedAmount - d.residualValue
    let monthlyRate := d.interestRate / 12
    let monthlyPayment :=
      amountToFinance * annuityNum monthlyRate (d.years * 12)
        / annuityDen monthlyRate (d.years * 12)
    let depreciation := calculateCarDepreciation d.purchasePrice monthsSincePurchase
    ⟨-monthlyPayment, -depreciation, none⟩

/-- `calculateCarLoanDelta`. -/
def calculateCarLoanDelta (d : CarLoanData) (monthsSincePurchase : ℤ)
    (loanBalance : Money) : DeltaResult :=
  if monthsSincePurchase < 0 ∨ (d.years : ℤ) * 12 ≤ monthsSincePurchase then ⟨0, 0, none⟩
  else if monthsSincePurchase = 0 then
    ⟨-d.deposit, d.purchasePrice - d.deposit, some (d.purchasePrice - d.deposit)⟩
  else
    let monthlyRate := d.interestRate / 12
    let loanAmount := d.purchasePrice - d.deposit
    let monthlyPayment :=
      loanAmount * annuityNum monthlyRate (d.years * 12)
        / annuityDen monthlyRate (d.years * 12)
    let interestPortion := loanBalance * monthlyRate
    let principalPortion := monthlyPayment - interestPortion
    let newBalance := max 0 (loanBalance - principalPortion)
    let depreciation := calculateCarDepreciation d.purchasePrice monthsSincePurchase
    ⟨-monthlyPayment, principalPortion - depreciation, some newBalance⟩

/-- One emitted data point: the month (first day of month) and the running
liquidity / assets totals rounded to 2 decimal places at emission. -/
structure ChartDataPoint where
  month : JDate
  liquidity : Money
  assets : Money
deriving DecidableEq, Repr

/-- `Math.round(x * 100) / 100`.  JS `Math.round` rounds half toward
positive infinity, as does Mathlib's `round` (`⌊x + 1/2⌋`). -/
def round2 (x : Money) : Money := (round (x * 100) : ℤ) / 100

/-- The driver's mutable state during one projection call: the running
totals and the three `Map` objects. -/
structure CalcState where
  currentLiquidity : Money
  currentAssets : Money
  mortgageBalances : ℤ → Option Money
  carLoanBalances : ℤ → Option Money
  carPurchaseDates : ℤ → Option JDate

/-- JS `map.get(k) || fallback`: the fallback is used when the key is absent
and also when the stored value is `0`, since `0` is falsy. -/
def jsGetOr (m : ℤ → Option Money) (k : ℤ) (fallback : Money) : Money :=
  match m k with
  | some b => if b = 0 then fallback else b
  | none => fallback

/-- JS `map.set(k, v)`. -/
def mapSet {α : Type} (m : ℤ → Option α) (k : ℤ) (v : α) : ℤ → Option α :=
  fun j => if j = k then some v else m j

/-- The balance the driver passes to `calculateMortgageDelta`:
`mortgageBalances.get(event.id) || loanedAmount * repaymentPercentage`. -/
def mortgagePassedBalance (s : CalcState) (id : ℤ) (d : MortgageData) : Money :=
  jsGetOr s.mortgageBalances id (d.loanedAmount * d.repaymentPercentage)

/-- The balance the driver passes to `calculateMortgageRepaymentDelta`:
`mortgageBalances.get(mortgageEventId) || 0`. -/
def repaymentPassedBalance (s : CalcState) (mortgageEventId : ℤ) : Money :=
  jsGetOr s.mortgageBalances mortgageEventId 0

/-- The balance the driver passes to `calculateCarLoanDelta`:
`carLoanBalances.get(event.id) || (purchasePrice - deposit)`. -/
def carLoanPassedBalance (s : CalcState) (id : ℤ) (d : CarLoanData) : Money :=
  jsGetOr s.carLoanBalances id (d.purchasePrice - d.deposit)

/-- Accumulate a delta into the running totals
(`currentLiquidity += delta.liquidityDelta; currentAssets += delta.assetsDelta`). -/
def applyDelta (s : CalcState) (delta : DeltaResult) : CalcState :=
  { s with
    currentLiquidity := s.currentLiquidity + delta.liquidityDelta
    currentAssets := s.currentAssets + delta.assetsDelta }

/-- The body of the driver's per-event `switch`: dispatch on the event type,
look up carried state, run the calculator, store any returned balance or
purchase date, and accumulate the delta. -/
def processEvent (currentMonth : JDate) (s : CalcState) (e : Event) : CalcState :=
  match e.data with
  | .income d => applyDelta s (calculateIncomeDelta d currentMonth)
  | .expense d => applyDelta s (calculateExpenseDelta d currentMonth)
  | .mortgage d =>
    let mortgageBalance := mortgagePassedBalance s e.id d
    let delta := calculateMortgageDelta d currentMonth mortgageBalance
    let s :=
      match delta.newBalance with
      | some b => { s with mortgageBalances := mapSet s.mortgageBalances e.id b }
      | none => s
    applyDelta s delta
  | .mortgageRepayment d =>
    let currentMortgageBalance := repaymentPassedBalance s d.mortgageEventId
    let delta := calculateMortgageRepaymentDelta d currentMonth currentMortgageBalance
    let s :=
      match delta.newBalance with
      | some b => { s with mortgageBalances := mapSet s.mortgageBalances d.mortgageEventId b }
      | none => s
    applyDelta s delta
  | .pcp d =>
    let pcpDate := (s.carPurchaseDates e.id).getD d.startDate
    let pcpMonths := jsDiffMonths currentMonth pcpDate
    let delta := calculatePCPDelta d pcpMonths
    let s :=
      match s.carPurchaseDates e.id with
      | none => { s with carPurchaseDates := mapSet s.carPurchaseDates e.id pcpDate }
      | some _ => s
    applyDelta s delta
  | .carLoan d =>
    let purchaseDate := (s.carPurchaseDates e.id).getD d.startDate
    let carLoanMonths := jsDiffMonths currentMonth purchaseDate
    let loanBalance := carLoanPassedBalance s e.id d
    let delta := calculateCarLoanDelta d carLoanMonths loanBalance
    let s :=
      match delta.newBalance with
      | some b => { s with carLoanBalances := mapSet s.carLoanBalances e.id b }
      | none => s
    let s :=
      match s.carPurchaseDates e.id with
      | none => { s with carPurchaseDates := mapSet s.carPurchaseDates e.id purchaseDate }
      | some _ => s
    applyDelta s delta
  | .unrecognized => applyDelta s ⟨0, 0, none⟩

/-- Process every event of one month, in event input order. -/
def processMonth (events : List Event) (currentMonth : JDate) (s : CalcState) : CalcState :=
  events.foldl (processEvent currentMonth) s

/-- The driver's state at the start of a projection call: zero totals,
empty maps. -/
def initialState : CalcState :=
  { currentLiquidity := 0
    currentAssets := 0
    mortgageBalances := fun _ => none
    carLoanBalances := fun _ => none
    carPurchaseDates := fun _ => none }

/-- The month loop of `calculateLiquidityAndAssets`: starting at
`monthIndex`, emit `remaining` more data points, threading the state.
Each iteration processes all events for `addMonths startMonth monthIndex`
and then records a point with the totals rounded to 2 decimals. -/
def runMonths (events : List Event) (startMonth : JDate) :
    ℕ → ℕ → CalcState → List ChartDataPoint
  | _, 0, _ => []
  | monthIndex, remaining + 1, s =>
    let currentMonth := addMonths startMonth (monthIndex : ℤ)
    let s' := processMonth events currentMonth s
    { month := currentMonth
      liquidity := round2 s'.currentLiquidity
      assets := round2 s'.currentAssets }
      :: runMonths events startMonth (monthIndex + 1) remaining s'

/-- `FinancialCalculator.calculateLiquidityAndAssets`: project
`rangeYears * 12` months from the start date's month. -/
def calculateLiquidityAndAssets (events : List Event) (startDate : JDate)
    (rangeYears : ℕ) : List ChartDataPoint :=
  runMonths events (startOfMonth startDate) 0 (rangeYears * 12) initialState

/-- The driver's state after the first `n` months of a projection have been
processed, starting from month index `idx` in state `s`
(`stateAfterAux events startMonth idx s n` is the state `runMonths` carries
into its `idx + n`-th month). -/
def stateAfterAux (events : List Event) (startMonth : JDate) (idx : ℕ) (s : CalcState) :
    ℕ → CalcState
  | 0 => s
  | n + 1 =>
    processMonth events (addMonths startMonth ((idx + n : ℕ) : ℤ))
      (stateAfterAux events startMonth idx s n)

/-- The driver's state after the first `n` months of
`calculateLiquidityAndAssets events startDate _` have been processed. -/
def stateAfter (events : List Event) (startDate : JDate) (n : ℕ) : CalcState :=
  stateAfterAux events (startOfMonth startDate) 0 initialState n

/-- The month loop emits one point per remaining month. -/
lemma runMonths_length (events : List Event) (sm : JDate) (r : ℕ) :
    ∀ (idx : ℕ) (s : CalcState), (runMonths events sm idx r s).length = r := by
  induction r with
  | zero => intro idx s; rfl
  | succ r ih => intro idx s; simp only [runMonths, List.length_cons, ih]

/-- Shifting the base of `stateAfterAux` by one processed month. -/
lemma stateAfterAux_shift (events : List Event) (sm : JDate) (n : ℕ) :
    ∀ (idx : ℕ) (s : CalcState),
      stateAfterAux events sm (idx + 1) (processMonth events (addMonths sm (idx : ℤ)) s) n
        = stateAfterAux events sm idx s (n + 1) := by
  induction n with
  | zero => intro idx s; simp [stateAfterAux]
  | succ n ih =>
    intro idx s
    have harith : idx + 1 + n = idx + (n + 1) := by omega
    simp only [stateAfterAux, ih, harith]

/-- Every emitted point is the current month together with the rounded
running totals of the state after that month. -/
lemma runMonths_getElem (events : List Event) (sm : JDate) (r : ℕ) :
    ∀ (idx n : ℕ) (s : CalcState) (p : ChartDataPoint),
      (runMonths events sm idx r s)[n]? = some p →
      p = ⟨addMonths sm ((idx + n : ℕ) : ℤ),
           round2 (stateAfterAux events sm idx s (n + 1)).currentLiquidity,
           round2 (stateAfterAux events sm idx s (n + 1)).currentAssets⟩ := by
  induction r with
  | zero => intro idx n s p h; simp [runMonths] at h
  | succ r ih =>
    intro idx n s p h
    cases n with
    | zero =>
      simp only [runMonths, List.getElem?_cons_zero, Option.some.injEq] at h
      simp [← h, stateAfterAux]
    | succ n =>
      have h' : (runMonths events sm (idx + 1) r
          (processMonth events (addMonths sm (idx : ℤ)) s))[n]? = some p := by
        simpa [runMonths] using h
      have harith : idx + 1 + n = idx + (n + 1) := by omega
      have hp := ih (idx + 1) n _ p h'
      rw [hp, stateAfterAux_shift, harith]

/-- With no events, each month's processing leaves the state unchanged. -/
lemma stateAfterAux_nil (sm : JDate) (idx : ℕ) (s : CalcState) :
    ∀ n, stateAfterAux [] sm idx s n = s := by
  intro n
  induction n with
  | zero => rfl
  | succ n ih => simp [stateAfterAux, processMonth, ih]

/-- Rounding zero to two decimals yields zero. -/
lemma round2_zero : round2 0 = 0 := by
  simp [round2]

/-- C1: for every event list, parseable start date and positive
`rangeYears`, the projection has exactly `rangeYears * 12` points, point
`i`'s month is the anchor (the start date truncated to the first of its
month) plus `i` months — hence the months ascend — and with an empty event
list every point has zero liquidity and zero assets. -/
theorem C1_projection_shape (events : List Event) (startDate : JDate) (rangeYears : ℕ)
    (h : 0 < rangeYears) :
    (calculateLiquidityAndAssets events startDate rangeYears).length = rangeYears * 12 ∧
    (∀ (n : ℕ) (p : ChartDataPoint),
        (calculateLiquidityAndAssets events startDate rangeYears)[n]? = some p →
        p.month = addMonths (startOfMonth startDate) (n : ℤ)) ∧
    (∀ p ∈ calculateLiquidityAndAssets [] startDate rangeYears,
        p.liquidity = 0 ∧ p.assets = 0) := by
  refine ⟨runMonths_length events (startOfMonth startDate) (rangeYears * 12) 0 initialState,
    ?_, ?_⟩
  · intro n p hp
    have := runMonths_getElem events (startOfMonth startDate) (rangeYears * 12) 0 n
      initialState p hp
    rw [this]
    simp
  · intro p hp
    rcases List.mem_iff_getElem?.mp hp with ⟨n, hn⟩
    have := runMonths_getElem [] (startOfMonth startDate) (rangeYears * 12) 0 n
      initialState p hn
    rw [this, stateAfterAux_nil]
    exact ⟨round2_zero, round2_zero⟩

/-- C1, instantiated: an empty projection over 1 year from an arbitrary
start date has exactly 12 points. -/
theorem C1_projection_shape_witness :
    0 < 1 ∧ (calculateLiquidityAndAssets [] ⟨5, 17⟩ 1).length = 1 * 12 :=
  ⟨by norm_num, (C1_projection_shape [] ⟨5, 17⟩ 1 (by norm_num)).1⟩

/-- C2: the mortgage calculator is zero with no balance outside the closed
window `[startMonth, startMonth + years*12]`; in the start month it returns
`assetsDelta = purchasePrice - loanedAmount`, `liquidityDelta = 0` and the
tracked balance `loanedAmount * repaymentPercentage` (the seed the driver
passes it there); and in every later in-window month, with tracked balance
`B`, it returns `liquidityDelta = -(amortizedPayment + interestOnlyPayment)`,
`assetsDelta = amortizedPayment - B*r` and
`newBalance = max 0 (B - principalPortion)`, where the payments are given by
the annuity formulas restated in the last two conjuncts. -/
theorem C2_mortgage_delta (d : MortgageData) (m : ℤ) (B : Money) :
    ((m < d.startDate.month ∨ d.startDate.month + (d.years : ℤ) * 12 < m) →
      calculateMortgageDelta d ⟨m, 1⟩ B = ⟨0, 0, none⟩) ∧
    (calculateMortgageDelta d ⟨d.startDate.month, 1⟩ (d.loanedAmount * d.repaymentPercentage)
      = ⟨0, d.purchasePrice - d.loanedAmount,
          some (d.loanedAmount * d.repaymentPercentage)⟩) ∧
    (d.startDate.month < m → m ≤ d.startDate.month + (d.years : ℤ) * 12 →
      calculateMortgageDelta d ⟨m, 1⟩ B
        = ⟨-(mortgageAmortizedPayment d + mortgageInterestOnlyPayment d),
            mortgageAmortizedPayment d - B * mortgageMonthlyRate d,
            some (max 0 (B - (mortgageAmortizedPayment d - B * mortgageMonthlyRate d)))⟩) ∧
    (mortgageAmortizedPayment d
      = d.loanedAmount * d.repaymentPercentage
          * (d.interestRate / 12 * (1 + d.interestRate / 12) ^ (d.years * 12))
        / ((1 + d.interestRate / 12) ^ (d.years * 12) - 1)) ∧
    (mortgageInterestOnlyPayment d
      = d.loanedAmount * (1 - d.repaymentPercentage) * (d.interestRate / 12)) := by
  refine ⟨?_, ?_, ?_, rfl, rfl⟩
  · intro h
    simp only [calculateMortgageDelta, startOfMonth, addMonths, jsIsBefore, jsIsAfter]
    rw [if_pos (by omega)]
  · simp only [calculateMortgageDelta, startOfMonth, addMonths, jsIsBefore, jsIsAfter]
    rw [if_neg (by omega)]
    simp
  · intro h1 h2
    simp only [calculateMortgageDelta, startOfMonth, addMonths, jsIsBefore, jsIsAfter,
      JDate.mk.injEq]
    rw [if_neg (by omega), if_neg (by omega)]

/-- C2, instantiated at a concrete mortgage: out-of-window, start-month and
in-window months. -/
theorem C2_mortgage_delta_witness :
    calculateMortgageDelta ⟨⟨0, 1⟩, 100, 80, 3 / 100, 1, 10⟩ ⟨-3, 1⟩ 50 = ⟨0, 0, none⟩ ∧
    calculateMortgageDelta ⟨⟨0, 1⟩, 100, 80, 3 / 100, 1, 10⟩ ⟨0, 1⟩ (80 * 1)
      = ⟨0, 100 - 80, some (80 * 1)⟩ ∧
    calculateMortgageDelta ⟨⟨0, 1⟩, 100, 80, 3 / 100, 1, 10⟩ ⟨1, 1⟩ 50
      = ⟨-(mortgageAmortizedPayment ⟨⟨0, 1⟩, 100, 80, 3 / 100, 1, 10⟩
            + mortgageInterestOnlyPayment ⟨⟨0, 1⟩, 100, 80, 3 / 100, 1, 10⟩),
          mortgageAmortizedPayment ⟨⟨0, 1⟩, 100, 80, 3 / 100, 1, 10⟩
            - 50 * mortgageMonthlyRate ⟨⟨0, 1⟩, 100, 80, 3 / 100, 1, 10⟩,
          some (max 0 (50 - (mortgageAmortizedPayment ⟨⟨0, 1⟩, 100, 80, 3 / 100, 1, 10⟩
            - 50 * mortgageMonthlyRate ⟨⟨0, 1⟩, 100, 80, 3 / 100, 1, 10⟩)))⟩ :=
  ⟨(C2_mortgage_delta _ (-3) 50).1 (by norm_num),
   (C2_mortgage_delta ⟨⟨0, 1⟩, 100, 80, 3 / 100, 1, 10⟩ 0 50).2.1,
   (C2_mortgage_delta _ 1 50).2.2.1 (by norm_num) (by norm_num)⟩

/-- C4: income and expense events never touch assets; under the start/end
date gates, a one-off event contributes `±amount` exactly in its start
month, and a recurrent event contributes `±amount` exactly in the months
whose calendar month-number is listed in `months` (every month when
`months` is empty); income adds and expense subtracts. -/
theorem C4_cashflow_delta (d : CashflowData) (m : ℤ)
    (hstart : d.startDate.month ≤ m)
    (hend : ∀ e, d.endDate = some e → m ≤ e.month) :
    (∀ cm : JDate, (calculateIncomeDelta d cm).assetsDelta = 0
        ∧ (calculateExpenseDelta d cm).assetsDelta = 0) ∧
    (d.isRecurrent = false →
      calculateIncomeDelta d ⟨m, 1⟩
        = if m = d.startDate.month then ⟨d.amount, 0, none⟩ else ⟨0, 0, none⟩) ∧
    (d.isRecurrent = false →
      calculateExpenseDelta d ⟨m, 1⟩
        = if m = d.startDate.month then ⟨-d.amount, 0, none⟩ else ⟨0, 0, none⟩) ∧
    (d.isRecurrent = true →
      calculateIncomeDelta d ⟨m, 1⟩
        = if d.months = [] ∨ (m % 12 + 1) ∈ d.months
          then ⟨d.amount, 0, none⟩ else ⟨0, 0, none⟩) ∧
    (d.isRecurrent = true →
      calculateExpenseDelta d ⟨m, 1⟩
        = if d.months = [] ∨ (m % 12 + 1) ∈ d.months
          then ⟨-d.amount, 0, none⟩ else ⟨0, 0, none⟩) := by
  have hbefore : ¬ jsIsBefore (⟨m, 1⟩ : JDate) (startOfMonth d.startDate) := by
    simp only [jsIsBefore, startOfMonth]
    omega
  have hafter : afterEndDate d.endDate ⟨m, 1⟩ = false := by
    rcases hde : d.endDate with _ | e
    · simp [afterEndDate]
    · have := hend e hde
      simp only [afterEndDate, jsIsAfter, jsIsBefore, startOfMonth, decide_eq_false_iff_not]
      omega
  refine ⟨?_, ?_, ?_, ?_, ?_⟩
  · intro cm
    constructor <;>
      · simp only [calculateIncomeDelta, calculateExpenseDelta]
        split_ifs <;> rfl
  · intro hrec
    simp only [calculateIncomeDelta, hafter, Bool.false_eq_true, if_false, hrec,
      Bool.not_false, if_true, startOfMonth, JDate.mk.injEq, and_true]
    rw [if_neg (by simp only [jsIsBefore]; omega)]
  · intro hrec
    simp only [calculateExpenseDelta, hafter, Bool.false_eq_true, if_false, hrec,
      Bool.not_false, if_true, startOfMonth, JDate.mk.injEq, and_true]
    rw [if_neg (by simp only [jsIsBefore]; omega)]
  · intro hrec
    simp only [calculateIncomeDelta, hafter, Bool.false_eq_true, if_false, hrec,
      Bool.not_true, if_false, monthNumber, startOfMonth]
    rw [if_neg (by simp only [jsIsBefore]; omega)]
  · intro hrec
    simp only [calculateExpenseDelta, hafter, Bool.false_eq_true, if_false, hrec,
      Bool.not_true, if_false, monthNumber, startOfMonth]
    rw [if_neg (by simp only [jsIsBefore]; omega)]

/-- C4, instantiated: a recurrent income of 2000 paid in calendar months
1, 6 and 12 contributes in a month numbered 6 and not in one numbered 3, and
a one-off expense contributes exactly in its start month. -/
theorem C4_cashflow_delta_witness :
    (calculateIncomeDelta ⟨2000, true, [1, 6, 12], ⟨0, 1⟩, none⟩ ⟨5, 1⟩
      = if [(1 : ℤ), 6, 12] = [] ∨ ((5 : ℤ) % 12 + 1) ∈ [(1 : ℤ), 6, 12]
        then ⟨2000, 0, none⟩ else ⟨0, 0, none⟩) ∧
    (calculateExpenseDelta ⟨700, false, [], ⟨4, 1⟩, none⟩ ⟨4, 1⟩
      = if (4 : ℤ) = 4 then ⟨-700, 0, none⟩ else ⟨0, 0, none⟩) :=
  ⟨(C4_cashflow_delta ⟨2000, true, [1, 6, 12], ⟨0, 1⟩, none⟩ 5 (by norm_num)
      (by intro e he; cases he)).2.2.2.1 rfl,
   (C4_cashflow_delta ⟨700, false, [], ⟨4, 1⟩, none⟩ 4 (by norm_num)
      (by intro e he; cases he)).2.2.1 rfl⟩

/-- C5: in their purchase month (0 months since purchase, inside the active
window) PCP and car loan both contribute `liquidityDelta = -deposit` and
`assetsDelta = purchasePrice - deposit`, the car loan seeding a tracked
balance of `purchasePrice - deposit`; in every later active month both pay
the fixed annuity over their financed amount (PCP finances
`purchasePrice - deposit - residualValue`, car loan `purchasePrice -
deposit`), PCP reducing liquidity only with `assetsDelta` equal to minus the
month's depreciation, while the car loan splits its payment into interest
`B * monthlyRate` and principal, with `assetsDelta = principalPortion -
depreciation` and `newBalance = max 0 (B - principalPortion)`. -/
theorem C5_car_finance (dp : PCPData) (dc : CarLoanData) (ms : ℤ) (B : Money) :
    (0 < (dp.years : ℤ) * 12 →
      calculatePCPDelta dp 0 = ⟨-dp.deposit, dp.purchasePrice - dp.deposit, none⟩) ∧
    (0 < (dc.years : ℤ) * 12 →
      calculateCarLoanDelta dc 0 B
        = ⟨-dc.deposit, dc.purchasePrice - dc.deposit,
            some (dc.purchasePrice - dc.deposit)⟩) ∧
    (0 < ms → ms < (dp.years : ℤ) * 12 →
      calculatePCPDelta dp ms
        = ⟨-((dp.purchasePrice - dp.deposit - dp.residualValue)
              * (dp.interestRate / 12 * (1 + dp.interestRate / 12) ^ (dp.years * 12))
              / ((1 + dp.interestRate / 12) ^ (dp.years * 12) - 1)),
            -calculateCarDepreciation dp.purchasePrice ms, none⟩) ∧
    (0 < ms → ms < (dc.years : ℤ) * 12 →
      calculateCarLoanDelta dc ms B
        = ⟨-((dc.purchasePrice - dc.deposit)
              * (dc.interestRate / 12 * (1 + dc.interestRate / 12) ^ (dc.years * 12))
              / ((1 + dc.interestRate / 12) ^ (dc.years * 12) - 1)),
            (dc.purchasePrice - dc.deposit)
              * (dc.interestRate / 12 * (1 + dc.interestRate / 12) ^ (dc.years * 12))
              / ((1 + dc.interestRate / 12) ^ (dc.years * 12) - 1)
              - B * (dc.interestRate / 12)
              - calculateCarDepreciation dc.purchasePrice ms,
            some (max 0 (B - ((dc.purchasePrice - dc.deposit)
              * (dc.interestRate / 12 * (1 + dc.interestRate / 12) ^ (dc.years * 12))
              / ((1 + dc.interestRate / 12) ^ (dc.years * 12) - 1)
              - B * (dc.interestRate / 12))))⟩) := by
  refine ⟨?_, ?_, ?_, ?_⟩
  · intro h
    simp only [calculatePCPDelta]
    rw [if_neg (by omega)]
    simp
  · intro h
    simp only [calculateCarLoanDelta]
    rw [if_neg (by omega)]
    simp
  · intro h1 h2
    simp only [calculatePCPDelta]
    rw [if_neg (by omega), if_neg (by omega)]
    simp only [annuityNum, annuityDen]
  · intro h1 h2
    simp only [calculateCarLoanDelta]
    rw [if_neg (by omega), if_neg (by omega)]
    simp only [annuityNum, annuityDen]

/-- C5, instantiated at a concrete PCP and car loan, month 0 and month 7. -/
theorem C5_car_finance_witness :
    calculatePCPDelta ⟨⟨0, 1⟩, 30000, 5000, 3, 10000, 6 / 100⟩ 0
      = ⟨-5000, 30000 - 5000, none⟩ ∧
    calculateCarLoanDelta ⟨⟨0, 1⟩, 20000, 2000, 5, 6 / 100⟩ 0 15000
      = ⟨-2000, 20000 - 2000, some (20000 - 2000)⟩ ∧
    calculatePCPDelta ⟨⟨0, 1⟩, 30000, 5000, 3, 10000, 6 / 100⟩ 7
      = ⟨-(((30000 : Money) - 5000 - 10000)
            * (6 / 100 / 12 * (1 + 6 / 100 / 12) ^ (3 * 12))
            / ((1 + 6 / 100 / 12) ^ (3 * 12) - 1)),
          -calculateCarDepreciation 30000 7, none⟩ ∧
    calculateCarLoanDelta ⟨⟨0, 1⟩, 20000, 2000, 5, 6 / 100⟩ 7 15000
      = ⟨-(((20000 : Money) - 2000)
            * (6 / 100 / 12 * (1 + 6 / 100 / 12) ^ (5 * 12))
            / ((1 + 6 / 100 / 12) ^ (5 * 12) - 1)),
          ((20000 : Money) - 2000)
            * (6 / 100 / 12 * (1 + 6 / 100 / 12) ^ (5 * 12))
            / ((1 + 6 / 100 / 12) ^ (5 * 12) - 1)
            - 15000 * (6 / 100 / 12)
            - calculateCarDepreciation 20000 7,
          some (max 0 (15000 - (((20000 : Money) - 2000)
            * (6 / 100 / 12 * (1 + 6 / 100 / 12) ^ (5 * 12))
            / ((1 + 6 / 100 / 12) ^ (5 * 12) - 1)
            - 15000 * (6 / 100 / 12))))⟩ :=
  ⟨(C5_car_finance ⟨⟨0, 1⟩, 30000, 5000, 3, 10000, 6 / 100⟩
      ⟨⟨0, 1⟩, 20000, 2000, 5, 6 / 100⟩ 0 15000).1 (by norm_num),
   (C5_car_finance ⟨⟨0, 1⟩, 30000, 5000, 3, 10000, 6 / 100⟩
      ⟨⟨0, 1⟩, 20000, 2000, 5, 6 / 100⟩ 0 15000).2.1 (by norm_num),
   (C5_car_finance ⟨⟨0, 1⟩, 30000, 5000, 3, 10000, 6 / 100⟩
      ⟨⟨0, 1⟩, 20000, 2000, 5, 6 / 100⟩ 7 15000).2.2.1 (by norm_num) (by norm_num),
   (C5_car_finance ⟨⟨0, 1⟩, 30000, 5000, 3, 10000, 6 / 100⟩
      ⟨⟨0, 1⟩, 20000, 2000, 5, 6 / 100⟩ 7 15000).2.2.2 (by norm_num) (by norm_num)⟩

/-- C6: for a nonnegative purchase price and age, monthly depreciation is
the purchase price times 2% below 24 months of age, 1.2% from 24 to 47
months (years 3-4) and 1% from 48 months on, and is never negative. -/
theorem C6_depreciation (p : Money) (ms : ℤ) (hp : 0 ≤ p) (hm : 0 ≤ ms) :
    calculateCarDepreciation p ms
      = p * (if ms < 24 then 2 / 100 else if ms < 48 then 12 / 1000 else 1 / 100) ∧
    0 ≤ calculateCarDepreciation p ms := by
  have hfd : Int.fdiv ms 12 = ms / 12 := Int.fdiv_eq_ediv ms (by norm_num)
  constructor
  · simp only [calculateCarDepreciation, hfd]
    by_cases h1 : ms < 24
    · rw [if_pos (by omega), if_pos h1]
      exact max_eq_left (mul_nonneg hp (by norm_num))
    · by_cases h2 : ms < 48
      · rw [if_neg (by omega), if_pos (by omega), if_neg h1, if_pos h2]
        exact max_eq_left (mul_nonneg hp (by norm_num))
      · rw [if_neg (by omega), if_neg (by omega), if_neg h1, if_neg h2]
        exact max_eq_left (mul_nonneg hp (by norm_num))
  · simp only [calculateCarDepreciation]
    exact le_max_right _ _

/-- C6, instantiated: a 30-month-old car bought for 10000 depreciates by
10000 * 1.2% monthly, never negatively. -/
theorem C6_depreciation_witness :
    calculateCarDepreciation 10000 30
      = 10000 * (if (30 : ℤ) < 24 then 2 / 100 else if (30 : ℤ) < 48 then 12 / 1000
          else 1 / 100) ∧
    0 ≤ calculateCarDepreciation 10000 30 :=
  C6_depreciation 10000 30 (by norm_num) (by norm_num)

/-- C7: a mortgage repayment contributes zero deltas in every month except
the calendar month of its `date`; in that month it returns
`liquidityDelta = -amount`, `assetsDelta = amount` and
`newBalance = max 0 (B - amount)`, and the driver writes that balance to the
key `mortgageEventId` — not to the repayment event's own id — leaving every
other key unchanged. -/
theorem C7_mortgage_repayment (d : MortgageRepaymentData) (m : ℤ) (B : Money)
    (s : CalcState) (eid : ℤ) :
    (m ≠ d.date.month →
      calculateMortgageRepaymentDelta d ⟨m, 1⟩ B = ⟨0, 0, none⟩) ∧
    (m = d.date.month →
      calculateMortgageRepaymentDelta d ⟨m, 1⟩ B
        = ⟨-d.amount, d.amount, some (max 0 (B - d.amount))⟩) ∧
    (∀ k, (processEvent ⟨d.date.month, 1⟩ s ⟨eid, .mortgageRepayment d⟩).mortgageBalances k
        = if k = d.mortgageEventId
          then some (max 0 (repaymentPassedBalance s d.mortgageEventId - d.amount))
          else s.mortgageBalances k) := by
  refine ⟨?_, ?_, ?_⟩
  · intro h
    simp only [calculateMortgageRepaymentDelta, startOfMonth]
    rw [if_pos (by simp only [JDate.mk.injEq]; omega)]
  · intro h
    simp only [calculateMortgageRepaymentDelta, startOfMonth]
    rw [if_neg (by simp [JDate.mk.injEq, h])]
  · intro k
    simp [processEvent, calculateMortgageRepaymentDelta, startOfMonth, applyDelta, mapSet]

/-- C7, instantiated: a repayment dated month 4 is zero in month 3, triggers
in month 4, and updates the referenced mortgage's balance key. -/
theorem C7_mortgage_repayment_witness :
    calculateMortgageRepaymentDelta ⟨7, ⟨4, 1⟩, 500⟩ ⟨3, 1⟩ 2000 = ⟨0, 0, none⟩ ∧
    calculateMortgageRepaymentDelta ⟨7, ⟨4, 1⟩, 500⟩ ⟨4, 1⟩ 2000
      = ⟨-500, 500, some (max 0 (2000 - 500))⟩ ∧
    (processEvent ⟨4, 1⟩ initialState ⟨9, .mortgageRepayment ⟨7, ⟨4, 1⟩, 500⟩⟩).mortgageBalances 7
      = if (7 : ℤ) = 7
        then some (max 0 (repaymentPassedBalance initialState 7 - 500))
        else initialState.mortgageBalances 7 :=
  ⟨(C7_mortgage_repayment ⟨7, ⟨4, 1⟩, 500⟩ 3 2000 initialState 9).1 (by norm_num),
   (C7_mortgage_repayment ⟨7, ⟨4, 1⟩, 500⟩ 4 2000 initialState 9).2.1 rfl,
   (C7_mortgage_repayment ⟨7, ⟨4, 1⟩, 500⟩ 4 2000 initialState 9).2.2 7⟩

/-- C8: with `interestRate = 0` — a value the data model permits — both the
numerator `r * (1+r)^n` and the denominator `(1+r)^n - 1` of the annuity
factor used by the mortgage (and PCP) calculators are zero, so the
JavaScript source computes the amortized payment as `0 / 0 = NaN`, which
then propagates into the emitted liquidity and assets values. -/
theorem C8_zero_rate_annuity (d : MortgageData) (p : PCPData)
    (hd : d.interestRate = 0) (hp : p.interestRate = 0) :
    annuityNum (mortgageMonthlyRate d) (d.years * 12) = 0 ∧
    annuityDen (mortgageMonthlyRate d) (d.years * 12) = 0 ∧
    annuityNum (p.interestRate / 12) (p.years * 12) = 0 ∧
    annuityDen (p.interestRate / 12) (p.years * 12) = 0 := by
  simp [annuityNum, annuityDen, mortgageMonthlyRate, hd, hp]

/-- C8, instantiated at a concrete zero-rate mortgage and PCP. -/
theorem C8_zero_rate_annuity_witness :
    annuityNum (mortgageMonthlyRate ⟨⟨0, 1⟩, 200000, 150000, 0, 1, 10⟩) (10 * 12) = 0 ∧
    annuityDen (mortgageMonthlyRate ⟨⟨0, 1⟩, 200000, 150000, 0, 1, 10⟩) (10 * 12) = 0 ∧
    annuityNum ((0 : Money) / 12) (3 * 12) = 0 ∧
    annuityDen ((0 : Money) / 12) (3 * 12) = 0 :=
  C8_zero_rate_annuity ⟨⟨0, 1⟩, 200000, 150000, 0, 1, 10⟩
    ⟨⟨0, 1⟩, 30000, 5000, 3, 10000, 0⟩ rfl rfl

/-- An unrecognized event leaves the driver state untouched. -/
lemma processEvent_unrecognized (cm : JDate) (s : CalcState) (id : ℤ) :
    processEvent cm s ⟨id, .unrecognized⟩ = s := by
  cases s
  simp [processEvent, applyDelta]

/-- Removing an unrecognized event from the list does not change a month's
processing. -/
lemma processMonth_unrecognized_middle (l1 l2 : List Event) (id : ℤ) (cm : JDate)
    (s : CalcState) :
    processMonth (l1 ++ ⟨id, .unrecognized⟩ :: l2) cm s = processMonth (l1 ++ l2) cm s := by
  simp [processMonth, List.foldl_append, List.foldl_cons, processEvent_unrecognized]

/-- Projections of event lists with identical per-month processing agree. -/
lemma runMonths_congr (ev1 ev2 : List Event) (sm : JDate)
    (hev : ∀ cm s, processMonth ev1 cm s = processMonth ev2 cm s) (r : ℕ) :
    ∀ (idx : ℕ) (s : CalcState), runMonths ev1 sm idx r s = runMonths ev2 sm idx r s := by
  induction r with
  | zero => intro idx s; rfl
  | succ r ih => intro idx s; simp only [runMonths, hev, ih]

/-- C9: an event of unrecognized type contributes zero to liquidity and
assets and leaves Balance State unchanged in every month, and the projection
with such an event present equals the projection with it removed (tolerant
dispatch, no error). -/
theorem C9_unrecognized_event (l1 l2 : List Event) (id : ℤ) (startDate : JDate)
    (rangeYears : ℕ) :
    (∀ (cm : JDate) (s : CalcState), processEvent cm s ⟨id, .unrecognized⟩ = s) ∧
    calculateLiquidityAndAssets (l1 ++ ⟨id, .unrecognized⟩ :: l2) startDate rangeYears
      = calculateLiquidityAndAssets (l1 ++ l2) startDate rangeYears := by
  refine ⟨fun cm s => processEvent_unrecognized cm s id, ?_⟩
  unfold calculateLiquidityAndAssets
  exact runMonths_congr _ _ _
    (fun cm s => processMonth_unrecognized_middle l1 l2 id cm s) _ 0 initialState

/-- C10: when a mortgage repayment's month arrives while no balance is
tracked for its `mortgageEventId`, the driver supplies a current balance of
0, the repayment still contributes `-amount` to liquidity and `+amount` to
assets, and the tracked balance for that mortgage id becomes 0; moreover a
mortgage event strictly before its start month stores no balance, which is
how that untracked situation arises. -/
theorem C10_untracked_repayment (d : MortgageRepaymentData) (s : CalcState) (eid : ℤ)
    (h0 : s.mortgageBalances d.mortgageEventId = none) (hamt : 0 ≤ d.amount) :
    repaymentPassedBalance s d.mortgageEventId = 0 ∧
    (processEvent ⟨d.date.month, 1⟩ s ⟨eid, .mortgageRepayment d⟩).currentLiquidity
      = s.currentLiquidity - d.amount ∧
    (processEvent ⟨d.date.month, 1⟩ s ⟨eid, .mortgageRepayment d⟩).currentAssets
      = s.currentAssets + d.amount ∧
    (processEvent ⟨d.date.month, 1⟩ s ⟨eid, .mortgageRepayment d⟩).mortgageBalances
        d.mortgageEventId = some 0 ∧
    (∀ (dm : MortgageData) (id2 : ℤ) (s2 : CalcState) (cm : JDate),
        jsIsBefore cm (startOfMonth dm.startDate) →
        (processEvent cm s2 ⟨id2, .mortgage dm⟩).mortgageBalances = s2.mortgageBalances) := by
  have hpass : repaymentPassedBalance s d.mortgageEventId = 0 := by
    simp [repaymentPassedBalance, jsGetOr, h0]
  have hbal : max 0 (repaymentPassedBalance s d.mortgageEventId - d.amount) = 0 := by
    rw [hpass]
    exact max_eq_left (by linarith)
  refine ⟨hpass, ?_, ?_, ?_, ?_⟩
  · simp [processEvent, calculateMortgageRepaymentDelta, startOfMonth, applyDelta,
      sub_eq_add_neg]
  · simp [processEvent, calculateMortgageRepaymentDelta, startOfMonth, applyDelta]
  · simp [processEvent, calculateMortgageRepaymentDelta, startOfMonth, applyDelta, mapSet,
      hbal]
  · intro dm id2 s2 cm hcm
    simp only [processEvent, calculateMortgageDelta]
    rw [if_pos (Or.inl hcm)]
    simp [applyDelta]

/-- C10, instantiated: a repayment of 500 in its month, with nothing tracked
for mortgage id 7, passes balance 0, moves 500 from cash to assets and sets
the tracked balance of id 7 to 0. -/
theorem C10_untracked_repayment_witness :
    repaymentPassedBalance initialState 7 = 0 ∧
    (processEvent ⟨4, 1⟩ initialState
        ⟨9, .mortgageRepayment ⟨7, ⟨4, 1⟩, 500⟩⟩).currentLiquidity
      = initialState.currentLiquidity - 500 ∧
    (processEvent ⟨4, 1⟩ initialState
        ⟨9, .mortgageRepayment ⟨7, ⟨4, 1⟩, 500⟩⟩).currentAssets
      = initialState.currentAssets + 500 ∧
    (processEvent ⟨4, 1⟩ initialState
        ⟨9, .mortgageRepayment ⟨7, ⟨4, 1⟩, 500⟩⟩).mortgageBalances 7 = some 0 ∧
    (∀ (dm : MortgageData) (id2 : ℤ) (s2 : CalcState) (cm : JDate),
        jsIsBefore cm (startOfMonth dm.startDate) →
        (processEvent cm s2 ⟨id2, .mortgage dm⟩).mortgageBalances = s2.mortgageBalances) :=
  C10_untracked_repayment ⟨7, ⟨4, 1⟩, 500⟩ initialState 9 rfl (by norm_num)

/-- Mortgage of the balance-threading counterexample: starts at the anchor
month, fully repayment-tracked, seed balance `100 * 1 = 100`. -/
def cexMortgage : MortgageData := ⟨⟨0, 1⟩, 100, 100, 12 / 100, 1, 1⟩

/-- Lump-sum repayment of the counterexample: in month 1 it pays 1000
against mortgage id 1, driving that tracked balance to `max 0 (b - 1000) = 0`. -/
def cexRepayment : MortgageRepaymentData := ⟨1, ⟨1, 1⟩, 1000⟩

/-- Event list of the counterexample. -/
def cexEvents : List Event := [⟨1, .mortgage cexMortgage⟩, ⟨2, .mortgageRepayment cexRepayment⟩]

/-- C3 counterexample: after month 1 of this projection the last balance
returned for mortgage id 1 is `0` (stored as `some 0`), yet in month 2 the
driver passes the mortgage calculator `100` — the initial seed, not the `0`
returned in month 1 — because `mortgageBalances.get(id) || seed` treats the
stored falsy value `0` as absent.  So the carried-forward balance is not
always the previously returned `newBalance`. -/
theorem C3_balance_passing_counterexample :
    (stateAfter cexEvents ⟨0, 1⟩ 2).mortgageBalances 1 = some 0 ∧
    mortgagePassedBalance (stateAfter cexEvents ⟨0, 1⟩ 2) 1 cexMortgage = 100 ∧
    (100 : Money) ≠ 0 := by
  norm_num [stateAfter, stateAfterAux, processMonth, processEvent, cexEvents, cexMortgage,
    cexRepayment, mortgagePassedBalance, repaymentPassedBalance, jsGetOr, mapSet, applyDelta,
    calculateMortgageDelta, calculateMortgageRepaymentDelta, mortgageAmortizedPayment,
    mortgageInterestOnlyPayment, mortgageMonthlyRate, annuityNum, annuityDen, startOfMonth,
    addMonths, jsIsBefore, jsIsAfter, initialState, max_def]

/-- C3 as amended: Balance State starts a projection call empty; the driver
stores for a stateful event exactly the `newBalance` its calculator
returned; and the balance passed in the next month is that stored balance
whenever it is nonzero — when the stored balance is `0` (or the key is
untracked), the driver passes the event's initial fallback instead
(`loanedAmount * repaymentPercentage` for a mortgage,
`purchasePrice - deposit` for a car loan), because the `||` lookup treats a
stored `0` as absent. -/
theorem C3_balance_threading_amended :
    (∀ k, initialState.mortgageBalances k = none ∧ initialState.carLoanBalances k = none) ∧
    (∀ (s : CalcState) (id : ℤ) (dm : MortgageData) (b : Money),
        s.mortgageBalances id = some b → b ≠ 0 →
        mortgagePassedBalance s id dm = b) ∧
    (∀ (s : CalcState) (id : ℤ) (dm : MortgageData),
        s.mortgageBalances id = some 0 ∨ s.mortgageBalances id = none →
        mortgagePassedBalance s id dm = dm.loanedAmount * dm.repaymentPercentage) ∧
    (∀ (s : CalcState) (id : ℤ) (dc : CarLoanData) (b : Money),
        s.carLoanBalances id = some b → b ≠ 0 →
        carLoanPassedBalance s id dc = b) ∧
    (∀ (s : CalcState) (id : ℤ) (dc : CarLoanData),
        s.carLoanBalances id = some 0 ∨ s.carLoanBalances id = none →
        carLoanPassedBalance s id dc = dc.purchasePrice - dc.deposit) ∧
    (∀ (s : CalcState) (cm : JDate) (id : ℤ) (dm : MortgageData) (v : Money),
        (calculateMortgageDelta dm cm (mortgagePassedBalance s id dm)).newBalance = some v →
        (processEvent cm s ⟨id, .mortgage dm⟩).mortgageBalances id = some v) ∧
    (∀ (s : CalcState) (cm : JDate) (id : ℤ) (dc : CarLoanData) (v : Money),
        (calculateCarLoanDelta dc
            (jsDiffMonths cm ((s.carPurchaseDates id).getD dc.startDate))
            (carLoanPassedBalance s id dc)).newBalance = some v →
        (processEvent cm s ⟨id, .carLoan dc⟩).carLoanBalances id = some v) := by
  refine ⟨fun k => ⟨rfl, rfl⟩, ?_, ?_, ?_, ?_, ?_, ?_⟩
  · intro s id dm b hb hnz
    simp [mortgagePassedBalance, jsGetOr, hb, hnz]
  · intro s id dm hb
    rcases hb with hb | hb <;> simp [mortgagePassedBalance, jsGetOr, hb]
  · intro s id dc b hb hnz
    simp [carLoanPassedBalance, jsGetOr, hb, hnz]
  · intro s id dc hb
    rcases hb with hb | hb <;> simp [carLoanPassedBalance, jsGetOr, hb]
  · intro s cm id dm v hv
    simp [processEvent, hv, applyDelta, mapSet]
  · intro s cm id dc v hv
    simp only [processEvent, hv]
    cases hpd : s.carPurchaseDates id <;> simp [applyDelta, mapSet, hpd]

/-- C3 amended, instantiated: with `some 5` stored for id 1, the mortgage
calculator is passed `5`; with `some 0` stored, it is passed the seed
`80 * 1`; and a mortgage in a month after its start month gets its returned
balance stored. -/
theorem C3_balance_threading_amended_witness :
    mortgagePassedBalance
        ⟨0, 0, fun k => if k = 1 then some 5 else none, fun _ => none, fun _ => none⟩
        1 ⟨⟨0, 1⟩, 100, 80, 3 / 100, 1, 10⟩ = 5 ∧
    mortgagePassedBalance
        ⟨0, 0, fun k => if k = 1 then some 0 else none, fun _ => none, fun _ => none⟩
        1 ⟨⟨0, 1⟩, 100, 80, 3 / 100, 1, 10⟩
      = (80 : Money) * 1 :=
  ⟨(C3_balance_threading_amended.2.1)
      ⟨0, 0, fun k => if k = 1 then some 5 else none, fun _ => none, fun _ => none⟩
      1 ⟨⟨0, 1⟩, 100, 80, 3 / 100, 1, 10⟩ 5 (by norm_num) (by norm_num),
   (C3_balance_threading_amended.2.2.1)
      ⟨0, 0, fun k => if k = 1 then some 0 else none, fun _ => none, fun _ => none⟩
      1 ⟨⟨0, 1⟩, 100, 80, 3 / 100, 1, 10⟩ (Or.inl (by norm_num))⟩

end Cashplan
